import Mathlib

/-
Verification development for the Schwab API integration repository,
focused on the token lifecycle manager in handlers/connection_manager.py
and its callers in app.py.

The Python code is shallowly embedded as pure Lean functions.  Side
effects are made explicit:
- times are integers (seconds); datetime.now() becomes an explicit
  argument now;
- ISO-8601 timestamp strings are abstracted by IsoStr: valid t stands
  for a well-formed string denoting absolute time t, invalid s for any
  malformed string; datetime.fromisoformat becomes fromisoformat and
  datetime.isoformat becomes isoformat;
- the token dictionary is the structure Tokens, with every field
  optional exactly as dictionary keys may be absent;
- network traffic is recorded as an explicit trace of NetCall values;
- the outcome of each HTTP request that the environment controls (the
  EC2 metadata probe, the OAuth token endpoint, the trader API) is an
  input parameter;
- the mutable world (the stream of future probe outcomes and the two
  storage backends) is threaded through every function;
- Python exceptions become Except values, paired with the world and
  the trace of effects performed before the raise.
-/

namespace Schwab

/-- ISO-8601 timestamp strings, abstracted: valid t is a well-formed
string denoting the absolute time t (in seconds), invalid s is any
malformed string s. -/
inductive IsoStr
  | valid (t : Int)
  | invalid (s : String)
deriving DecidableEq, Repr

/-- Embedding of datetime.fromisoformat: succeeds exactly on
well-formed timestamp strings, yielding the denoted absolute time. -/
def fromisoformat : IsoStr → Option Int
  | IsoStr.valid t => some t
  | IsoStr.invalid _ => none

/-- Embedding of datetime.isoformat: a well-formed string denoting t. -/
def isoformat (t : Int) : IsoStr := IsoStr.valid t

/-- The token dictionary handled by connection_manager.py.  Every field
is optional because the Python object is a dict whose keys may be
absent.  expires_in is the value already parsed as an integer when the
key is present (the code does int on it); expires_at is the raw string
value. -/
structure Tokens where
  access_token : Option String := none
  refresh_token : Option String := none
  token_type : Option String := none
  expires_at : Option IsoStr := none
  expires_in : Option Int := none
deriving DecidableEq, Repr

/-- Python exceptions that the embedded code can raise. -/
inductive PyError
  | keyError (key : String)
  | valueError
deriving DecidableEq, Repr

/-- One network request attempt, as recorded in the effect trace. -/
inductive NetCall
  | imdsPut       -- PUT to the EC2 metadata token endpoint (IMDSv2)
  | imdsGet       -- GET to an EC2 metadata instance-id endpoint
  | secretsGet    -- AWS Secrets Manager get_secret_value
  | secretsUpdate -- AWS Secrets Manager update_secret
  | secretsCreate -- AWS Secrets Manager create_secret
  | tokenPost     -- POST to the OAuth token endpoint (exchange or refresh)
  | browserAuth   -- interactive browser authentication (get_authorization_code)
deriving DecidableEq, Repr

/-- Outcome of a single HTTP request: none means the request raised an
exception (timeout or connection failure), some s means it returned
HTTP status s. -/
abbrev HttpOutcome := Option Nat

/-- Environment for one invocation of the EC2 metadata probe: the
outcome of the IMDSv2 token PUT, the outcome of the IMDSv2 instance-id
GET, and the outcome of the IMDSv1 fallback GET. -/
structure ProbeEnv where
  putTokenOutcome : HttpOutcome
  v2GetOutcome : HttpOutcome
  v1GetOutcome : HttpOutcome
deriving DecidableEq, Repr

/-- Embedding of is_running_on_ec2 (connection_manager.py lines 19-45).
Issues the IMDSv2 PUT; if it returns 200, issues the IMDSv2 GET and
returns whether that GET returned 200; on any intermediate exception or
a non-200 PUT it falls back to one IMDSv1 GET; an exception there makes
the whole probe return False.  Every HTTP attempt is recorded in the
trace, including attempts that raised. -/
def is_running_on_ec2 (e : ProbeEnv) : Bool × List NetCall :=
  match e.putTokenOutcome, e.v2GetOutcome, e.v1GetOutcome with
  | none, _, none => (false, [NetCall.imdsPut, NetCall.imdsGet])
  | none, _, some s1 => (decide (s1 = 200), [NetCall.imdsPut, NetCall.imdsGet])
  | some ts, v2, v1 =>
    if ts = 200 then
      match v2, v1 with
      | some s2, _ => (decide (s2 = 200), [NetCall.imdsPut, NetCall.imdsGet])
      | none, none => (false, [NetCall.imdsPut, NetCall.imdsGet, NetCall.imdsGet])
      | none, some s1 => (decide (s1 = 200), [NetCall.imdsPut, NetCall.imdsGet, NetCall.imdsGet])
    else
      match v1 with
      | none => (false, [NetCall.imdsPut, NetCall.imdsGet])
      | some s1 => (decide (s1 = 200), [NetCall.imdsPut, NetCall.imdsGet])

/-- The two storage backends: the local file cs_tokens.json and the
AWS Secrets Manager tokens secret.  none means the file or secret does
not exist; some t means it holds the JSON encoding of t. -/
structure Store where
  localFile : Option Tokens := none
  cloudSecret : Option Tokens := none
deriving DecidableEq, Repr

/-- The mutable world threaded through the embedded code: the stream of
outcomes of successive metadata-probe invocations (each call to
is_running_on_ec2 consumes one entry) and the storage state. -/
structure World where
  probes : List ProbeEnv := []
  store : Store := {}
deriving DecidableEq, Repr

/-- Probe environment used when the probe stream is exhausted: every
metadata request raises (the non-EC2 development machine). -/
def defaultProbe : ProbeEnv := ⟨none, none, none⟩

/-- One invocation of the metadata probe: consumes the next entry of
the probe stream (or uses defaultProbe when the stream is empty) and
records the HTTP attempts the probe made. -/
def runProbe (w : World) : Bool × World × List NetCall :=
  match w.probes with
  | [] => ((is_running_on_ec2 defaultProbe).1, w, (is_running_on_ec2 defaultProbe).2)
  | p :: ps => ((is_running_on_ec2 p).1, { w with probes := ps }, (is_running_on_ec2 p).2)

/-- Embedding of load_tokens (connection_manager.py lines 163-193).
Re-runs the EC2 metadata probe on every call; on EC2 it reads the
Secrets Manager secret (any failure, including a missing resource,
yields None); otherwise it reads the local file cs_tokens.json. -/
def load_tokens (w : World) : Option Tokens × World × List NetCall :=
  match runProbe w with
  | (onEc2, w1, tr) =>
    if onEc2 then
      match w1.store.cloudSecret with
      | some t => (some t, w1, tr ++ [NetCall.secretsGet])
      | none => (none, w1, tr ++ [NetCall.secretsGet])
    else
      (w1.store.localFile, w1, tr)

/-- Embedding of save_tokens (connection_manager.py lines 121-154).
First reads tokens of expires_in — a dict access that raises KeyError
when the key is absent — then overwrites expires_at in the same dict
with the absolute time now + expires_in (as an ISO string), re-runs the
EC2 metadata probe, and writes the mutated dict wholesale to the
backend the probe selects (Secrets Manager update, falling back to
create when the secret is missing; otherwise the local file).  The
value component of the result is the Python return value, which is
always None because the function has no return statement; the Tokens
component is the mutated dict (visible to callers through aliasing). -/
def save_tokens (now : Int) (tokens : Tokens) (w : World) :
    Except PyError (Option Unit × Tokens) × World × List NetCall :=
  match tokens.expires_in with
  | none => (Except.error (PyError.keyError "expires_in"), w, [])
  | some k =>
    let tokens2 := { tokens with expires_at := some (isoformat (now + k)) }
    match runProbe w with
    | (onEc2, w1, tr) =>
      if onEc2 then
        match w1.store.cloudSecret with
        | some _ =>
          (Except.ok (none, tokens2),
           { w1 with store := { w1.store with cloudSecret := some tokens2 } },
           tr ++ [NetCall.secretsUpdate])
        | none =>
          (Except.ok (none, tokens2),
           { w1 with store := { w1.store with cloudSecret := some tokens2 } },
           tr ++ [NetCall.secretsUpdate, NetCall.secretsCreate])
      else
        (Except.ok (none, tokens2),
         { w1 with store := { w1.store with localFile := some tokens2 } },
         tr)

/-- Response of the OAuth token endpoint for one POST: the HTTP status
and, when the status is 200, the decoded JSON body. -/
structure TokenEndpointResp where
  status : Nat
  body : Tokens
deriving DecidableEq, Repr

/-- Embedding of refresh_tokens (connection_manager.py lines 244-269).
POSTs the refresh grant to the token endpoint; on HTTP 200 it saves the
body via save_tokens and returns the (mutated) new token dict; on any
other status it returns None without touching storage. -/
def refresh_tokens (now : Int) (resp : TokenEndpointResp) (_rt : Option String)
    (w : World) : Except PyError (Option Tokens) × World × List NetCall :=
  if resp.status = 200 then
    match save_tokens now resp.body w with
    | (Except.error e, w1, tr) => (Except.error e, w1, NetCall.tokenPost :: tr)
    | (Except.ok (_, mutated), w1, tr) =>
      (Except.ok (some mutated), w1, NetCall.tokenPost :: tr)
  else
    (Except.ok none, w, [NetCall.tokenPost])

/-- Embedding of get_tokens (connection_manager.py lines 212-242), the
authorization-code exchange.  Identical effect structure to
refresh_tokens: POST, then on 200 save and return the mutated dict. -/
def get_tokens (now : Int) (resp : TokenEndpointResp) (_code : String)
    (w : World) : Except PyError (Option Tokens) × World × List NetCall :=
  if resp.status = 200 then
    match save_tokens now resp.body w with
    | (Except.error e, w1, tr) => (Except.error e, w1, NetCall.tokenPost :: tr)
    | (Except.ok (_, mutated), w1, tr) =>
      (Except.ok (some mutated), w1, NetCall.tokenPost :: tr)
  else
    (Except.ok none, w, [NetCall.tokenPost])

/-- The 2-minute refresh buffer, in seconds (timedelta of 2 minutes). -/
def two_minutes : Int := 120

/-- The part of ensure_valid_tokens after the storage load
(connection_manager.py lines 275-305), operating on the snapshot the
caller loaded: missing tokens, missing expires_at or unparseable
expires_at yield None with no further effect; a parseable expires_at
within the 2-minute buffer of now (or past) triggers refresh_tokens;
otherwise the loaded snapshot is returned unchanged. -/
def ensure_after_load (now : Int) (resp : TokenEndpointResp)
    (tk : Option Tokens) (w : World) :
    Except PyError (Option Tokens) × World × List NetCall :=
  match tk with
  | none => (Except.ok none, w, [])
  | some tokens =>
    match tokens.expires_at with
    | none => (Except.ok none, w, [])
    | some raw =>
      match fromisoformat raw with
      | none => (Except.ok none, w, [])
      | some e =>
        if e - two_minutes ≤ now then
          refresh_tokens now resp tokens.refresh_token w
        else
          (Except.ok (some tokens), w, [])

/-- Embedding of ensure_valid_tokens (connection_manager.py lines
273-305): load the stored tokens, then run the post-load logic. -/
def ensure_valid_tokens (now : Int) (resp : TokenEndpointResp) (w : World) :
    Except PyError (Option Tokens) × World × List NetCall :=
  match load_tokens w with
  | (tk, w1, tr1) =>
    match ensure_after_load now resp tk w1 with
    | (r, w2, tr2) => (r, w2, tr1 ++ tr2)

/-- Truth value of a Python object under the if statement: None is
falsy, any other value truthy.  Used for the return value of
save_tokens, which is always None. -/
def pyTruthy : Option Unit → Bool
  | none => false
  | some _ => true

/-- Message of a caught Python exception (str of e). -/
def pyErrMsg : PyError → String
  | PyError.keyError k => "KeyError: " ++ k
  | PyError.valueError => "ValueError"

/-- An HTTP response of the Flask endpoint: a 200 JSON success or a
jsonify error with a status code. -/
inductive HttpResult
  | ok200 (msg : String)
  | err (code : Nat) (msg : String)
deriving DecidableEq, Repr

/-- Emptiness test for the (stripped) expires_at form field: Python
falsiness of the raw string. -/
def isoIsEmpty : IsoStr → Bool
  | IsoStr.invalid s => s == ""
  | IsoStr.valid _ => false

/-- The branch the upload endpoint takes on the return value of
save_tokens (app.py line 832: if save_tokens of tokens, then success
else a 500 error). -/
def upload_save_branch (r : Option Unit) : HttpResult :=
  if pyTruthy r then
    HttpResult.ok200 "Tokens uploaded and saved successfully"
  else
    HttpResult.err 500 "Failed to save tokens"

/-- The JSON body of a manual token-upload request, after the strip
calls: the two token strings and the raw expires_at string. -/
structure UploadReq where
  access_token : String
  refresh_token : String
  expires_at_raw : IsoStr
deriving DecidableEq, Repr

/-- Embedding of the upload_tokens endpoint (app.py lines 794-845).
Rejects empty fields, unparseable expires_at and past expires_at with
HTTP 400; otherwise builds the token dict with the fields
access_token, refresh_token, expires_at and token_type (and no
expires_in key), calls save_tokens on it, and branches on the
truthiness of its return value; an exception escaping save_tokens is
caught by the outer handler and surfaced as a 500 error. -/
def upload_tokens (now : Int) (req : UploadReq) (w : World) :
    HttpResult × World :=
  if req.access_token = "" ∨ req.refresh_token = "" ∨ isoIsEmpty req.expires_at_raw then
    (HttpResult.err 400 "Missing required fields: access_token, refresh_token, expires_at", w)
  else
    match fromisoformat req.expires_at_raw with
    | none => (HttpResult.err 400 "Invalid expires_at format", w)
    | some t =>
      if t ≤ now then
        (HttpResult.err 400 "Token expiration time is in the past", w)
      else
        let tokens : Tokens :=
          { access_token := some req.access_token
            refresh_token := some req.refresh_token
            expires_at := some req.expires_at_raw
            token_type := some "Bearer"
            expires_in := none }
        match save_tokens now tokens w with
        | (Except.error e, w1, _) => (HttpResult.err 500 (pyErrMsg e), w1)
        | (Except.ok (r, _), w1, _) => (upload_save_branch r, w1)

/-
Local-file write model for _save_tokens_local (connection_manager.py
lines 156-161), refined to individual file-system operations so that
intermediate file states visible to a concurrent reader can be
observed.  The file system is reduced to the two paths that matter:
the final path cs_tokens.json and a hypothetical temporary path.
-/

/-- Content of one file: missing, truncated-empty (just opened for
writing, nothing flushed yet), or holding the complete JSON encoding
of a token set. -/
inductive FileContent
  | absent
  | empty
  | json (t : Tokens)
deriving DecidableEq, Repr

/-- The two file slots relevant to the local token store. -/
structure LocalFs where
  finalFile : FileContent
  tempFile : FileContent
deriving DecidableEq, Repr

/-- File-system operations a save routine could perform. -/
inductive FsOp
  | openTruncFinal       -- open cs_tokens.json in write mode (truncates)
  | writeFinal (t : Tokens)  -- json.dump of t into cs_tokens.json
  | openTruncTemp        -- open a temporary path in write mode
  | writeTemp (t : Tokens)   -- json.dump of t into the temporary path
  | renameTempToFinal    -- atomic rename of the temporary path onto cs_tokens.json
deriving DecidableEq, Repr

/-- Effect of one file-system operation on the two file slots. -/
def applyFsOp : LocalFs → FsOp → LocalFs
  | fs, FsOp.openTruncFinal => { fs with finalFile := FileContent.empty }
  | fs, FsOp.writeFinal t => { fs with finalFile := FileContent.json t }
  | fs, FsOp.openTruncTemp => { fs with tempFile := FileContent.empty }
  | fs, FsOp.writeTemp t => { fs with tempFile := FileContent.json t }
  | fs, FsOp.renameTempToFinal =>
      { finalFile := fs.tempFile, tempFile := FileContent.absent }

/-- The operations _save_tokens_local performs, in order: it opens the
final path cs_tokens.json directly in write mode and json.dumps the
tokens into it (connection_manager.py lines 159-161). -/
def save_tokens_local_trace (tokens : Tokens) : List FsOp :=
  [FsOp.openTruncFinal, FsOp.writeFinal tokens]

/-- All file-system states along a trace, including the initial one. -/
def fsStates : LocalFs → List FsOp → List LocalFs
  | fs, [] => [fs]
  | fs, op :: ops => fs :: fsStates (applyFsOp fs op) ops

/-- The contents of cs_tokens.json that a concurrent reader could
observe at the instants between the operations of a trace. -/
def observableFinals (init : LocalFs) (ops : List FsOp) : List FileContent :=
  (fsStates init ops).map LocalFs.finalFile

/-
Concurrency model for ensure_valid_tokens.  The function takes no lock:
a caller is exactly the sequential composition of load_tokens and
ensure_after_load on the shared world, so an interleaving of several
callers is obtained by scheduling those two phases.  The schedule below
is the classic race: both callers perform their load before either
proceeds, so each holds a stale snapshot when it decides to refresh.
-/

/-- Two concurrent callers of ensure_valid_tokens under the
interleaving load(1); load(2); rest(1); rest(2).  Both phases of each
caller are literally the phases of ensure_valid_tokens; only the
shared world is threaded through in schedule order.  The result is the
final world and the concatenated network trace (each caller also gets
its own return value, which the refresh count does not depend on). -/
def two_callers_both_load_first (now : Int) (resp : TokenEndpointResp)
    (w : World) : World × List NetCall :=
  match load_tokens w with
  | (s1, w1, tr1) =>
    match load_tokens w1 with
    | (s2, w2, tr2) =>
      match ensure_after_load now resp s1 w2 with
      | (_, w3, tr3) =>
        match ensure_after_load now resp s2 w3 with
        | (_, w4, tr4) => (w4, tr1 ++ tr2 ++ tr3 ++ tr4)

/-- Number of refresh requests (POSTs to the OAuth token endpoint) in
a network trace. -/
def refresh_calls (tr : List NetCall) : Nat := tr.count NetCall.tokenPost

/-
Embedding of the two 429-handling call sites named by the spec.
Effects of the trader-API helpers: HTTP request attempts and sleeps.
-/

/-- One effect of an API helper: a request attempt or a sleep of the
given number of seconds. -/
inductive ApiEffect
  | httpGet
  | sleep (secs : Int)
deriving DecidableEq, Repr

/-- Response to one trader-API GET: the status, the Retry-After header
(outer none = header absent; some none = present but not parseable as
an integer; some (some n) = parses to n) and the body. -/
structure ApiResp where
  status : Nat
  retryAfter : Option (Option Int)
  body : String
deriving DecidableEq, Repr

/-- Embedding of get_account_details (connection_manager.py lines
328-345): a single GET; on 200 the body is returned; on 429 the
Retry-After header is read and printed and the function returns None —
it does not sleep and does not retry; any other status also returns
None. -/
def get_account_details (resp : ApiResp) : Option String × List ApiEffect :=
  if resp.status = 200 then
    (some resp.body, [ApiEffect.httpGet])
  else if resp.status = 429 then
    (none, [ApiEffect.httpGet])
  else
    (none, [ApiEffect.httpGet])

/-- One raw position entry of the JSON body of the positions call. -/
structure RawPos where
  symbol : Option String := none
  quantity : Option Int := none
  costBasis : Option Int := none
  marketValue : Option Int := none
  unrealizedPL : Option Int := none
  unrealizedPLPercent : Option Int := none
deriving DecidableEq, Repr

/-- One formatted position entry as built by get_positions. -/
structure FmtPos where
  symbol : Option String
  quantity : Option Int
  cost_basis : Option Int
  market_value : Option Int
  unrealized_pl : Option Int
  unrealized_pl_percent : Option Int
deriving DecidableEq, Repr

/-- The per-entry formatting of get_positions (lines 363-372). -/
def formatPos (p : RawPos) : FmtPos :=
  ⟨p.symbol, p.quantity, p.costBasis, p.marketValue, p.unrealizedPL,
   p.unrealizedPLPercent⟩

/-- Response to one attempt of get_positions: whether the request
raised a RequestException, and otherwise the status, the Retry-After
header (as in ApiResp) and the decoded positions list. -/
structure PosResp where
  raised : Bool
  status : Nat
  retryAfter : Option (Option Int)
  positions : List RawPos
deriving DecidableEq, Repr

/-- The retry loop of get_positions (connection_manager.py lines
356-384), parameterized by the response each attempt would receive.
rem is the number of loop iterations left (3 at entry), attempt the
current index.  A RequestException sleeps 2 to the attempt and
continues; 200 returns the formatted positions; 429 reads Retry-After
(absent defaults to 60; a present but unparseable value makes int
raise ValueError, which no handler catches), sleeps that long and
continues; any other status sleeps 2 to the attempt and continues;
an exhausted loop returns None. -/
def get_positions_loop (resps : Nat → PosResp) (attempt : Nat) :
    Nat → Except PyError (Option (List FmtPos)) × List ApiEffect
  | 0 => (Except.ok none, [])
  | rem + 1 =>
    let r := resps attempt
    if r.raised then
      match get_positions_loop resps (attempt + 1) rem with
      | (res, tr) => (res, ApiEffect.httpGet :: ApiEffect.sleep (2 ^ attempt) :: tr)
    else if r.status = 200 then
      (Except.ok (some (r.positions.map formatPos)), [ApiEffect.httpGet])
    else if r.status = 429 then
      match r.retryAfter with
      | none =>
        match get_positions_loop resps (attempt + 1) rem with
        | (res, tr) => (res, ApiEffect.httpGet :: ApiEffect.sleep 60 :: tr)
      | some none => (Except.error PyError.valueError, [ApiEffect.httpGet])
      | some (some n) =>
        match get_positions_loop resps (attempt + 1) rem with
        | (res, tr) => (res, ApiEffect.httpGet :: ApiEffect.sleep n :: tr)
    else
      match get_positions_loop resps (attempt + 1) rem with
      | (res, tr) => (res, ApiEffect.httpGet :: ApiEffect.sleep (2 ^ attempt) :: tr)

/-- Embedding of get_positions: the loop with retries = 3. -/
def get_positions (resps : Nat → PosResp) :
    Except PyError (Option (List FmtPos)) × List ApiEffect :=
  get_positions_loop resps 0 3

/-
Concrete example inputs used by witnesses and counterexamples.
-/

/-- A token set whose expires_at (time 100) is long past. -/
def exStale : Tokens :=
  { access_token := some "a", refresh_token := some "r",
    token_type := some "Bearer", expires_at := some (IsoStr.valid 100),
    expires_in := some 1800 }

/-- A fresh token body as returned by the token endpoint (carries
expires_in but no expires_at, exactly like the JSON the server sends). -/
def exFresh : Tokens :=
  { access_token := some "a2", refresh_token := some "r2",
    token_type := some "Bearer", expires_in := some 1800 }

/-- A token set valid far beyond the 2-minute buffer (time 100000). -/
def exValid : Tokens :=
  { access_token := some "a", refresh_token := some "r",
    token_type := some "Bearer", expires_at := some (IsoStr.valid 100000),
    expires_in := some 1800 }

/-- A successful token-endpoint response carrying exFresh. -/
def exResp200 : TokenEndpointResp := ⟨200, exFresh⟩

/-- A failed token-endpoint response (HTTP 400). -/
def exResp400 : TokenEndpointResp := ⟨400, exFresh⟩

/-- World with no probe entries (every probe raises: a development
machine off EC2) and no stored tokens anywhere. -/
def wEmpty : World := {}

/-- Off-EC2 world whose local file holds the stale token set. -/
def wStale : World := { store := { localFile := some exStale } }

/-- Off-EC2 world whose local file holds the still-valid token set. -/
def wValid : World := { store := { localFile := some exValid } }

/-- A probe invocation that concludes the process is not on EC2 (the
IMDSv2 PUT and the IMDSv1 fallback both return 404). -/
def probeOff : ProbeEnv := ⟨some 404, none, some 404⟩

/-- A probe invocation that concludes the process is on EC2. -/
def probeOn : ProbeEnv := ⟨some 200, some 200, none⟩

/-- World whose first probe says off-EC2 and whose second says on-EC2
(for example the metadata service was briefly unreachable), with the
stale token set in the local file. -/
def wMix : World :=
  { probes := [probeOff, probeOn], store := { localFile := some exStale } }

/-- The token dict built by the upload endpoint: access_token,
refresh_token, expires_at and token_type, and no expires_in key. -/
def exUploadDict : Tokens :=
  { access_token := some "a", refresh_token := some "r",
    token_type := some "Bearer", expires_at := some (IsoStr.valid 50) }

/-- A well-formed manual upload request whose expires_at is in the
future of time 0. -/
def exUploadReq : UploadReq := ⟨"a", "r", IsoStr.valid 50⟩

/-- Positions-call response: HTTP 429 with Retry-After 5. -/
def exPos429 : PosResp := ⟨false, 429, some (some 5), []⟩

/-- Positions-call response: HTTP 429 with no Retry-After header. -/
def exPos429NoHdr : PosResp := ⟨false, 429, none, []⟩

/-- Positions-call response: HTTP 200 with one position entry. -/
def exPos200 : PosResp := ⟨false, 200, none, [{ symbol := some "X" }]⟩

/-
Helper lemmas about the shapes of traces and the preservation of the
storage state, shared by several theorems below.
-/

lemma is_running_on_ec2_trace (e : ProbeEnv) :
    (is_running_on_ec2 e).2 = [NetCall.imdsPut, NetCall.imdsGet] ∨
    (is_running_on_ec2 e).2 = [NetCall.imdsPut, NetCall.imdsGet, NetCall.imdsGet] := by
  rcases e with ⟨pt, v2, v1⟩
  cases pt <;> cases v2 <;> cases v1 <;>
    simp [is_running_on_ec2] <;> split <;> simp

lemma runProbe_store (w : World) : (runProbe w).2.1.store = w.store := by
  cases h : w.probes <;> simp [runProbe, h]

lemma runProbe_trace (w : World) :
    (runProbe w).2.2 = [NetCall.imdsPut, NetCall.imdsGet] ∨
    (runProbe w).2.2 = [NetCall.imdsPut, NetCall.imdsGet, NetCall.imdsGet] := by
  cases h : w.probes with
  | nil => simpa [runProbe, h] using is_running_on_ec2_trace defaultProbe
  | cons p ps => simpa [runProbe, h] using is_running_on_ec2_trace p

lemma load_tokens_store (w : World) : (load_tokens w).2.1.store = w.store := by
  have hps := runProbe_store w
  unfold load_tokens
  rcases hrp : runProbe w with ⟨b, w1, tr⟩
  rw [hrp] at hps
  simp only at hps
  cases b
  · simpa using hps
  · cases hcs : w1.store.cloudSecret <;> simpa [hcs] using hps

lemma load_tokens_trace_mem (w : World) :
    ∀ c ∈ (load_tokens w).2.2,
      c = NetCall.imdsPut ∨ c = NetCall.imdsGet ∨ c = NetCall.secretsGet := by
  have hpt := runProbe_trace w
  unfold load_tokens
  rcases hrp : runProbe w with ⟨b, w1, tr⟩
  rw [hrp] at hpt
  simp only at hpt
  intro c hc
  cases b
  · simp only [Bool.false_eq_true, if_false] at hc
    rcases hpt with h | h <;> rw [h] at hc <;> simp at hc <;> tauto
  · simp only [if_true] at hc
    cases hcs : w1.store.cloudSecret <;> rw [hcs] at hc <;>
      rcases hpt with h | h <;> rw [h] at hc <;> simp at hc <;> tauto

lemma load_tokens_trace_ne_nil (w : World) : (load_tokens w).2.2 ≠ [] := by
  have hpt := runProbe_trace w
  unfold load_tokens
  rcases hrp : runProbe w with ⟨b, w1, tr⟩
  rw [hrp] at hpt
  simp only at hpt
  cases b
  · simp only [Bool.false_eq_true, if_false]
    rcases hpt with h | h <;> rw [h] <;> simp
  · simp only [if_true]
    cases hcs : w1.store.cloudSecret <;> simp [hcs]

lemma ensure_after_load_none (now : Int) (resp : TokenEndpointResp) (w : World) :
    ensure_after_load now resp none w = (Except.ok none, w, []) := rfl

lemma ensure_after_load_no_expiry (now : Int) (resp : TokenEndpointResp)
    (t : Tokens) (w : World) (h : t.expires_at = none) :
    ensure_after_load now resp (some t) w = (Except.ok none, w, []) := by
  unfold ensure_after_load
  dsimp only
  rw [h]

lemma ensure_after_load_bad_expiry (now : Int) (resp : TokenEndpointResp)
    (t : Tokens) (w : World) (raw : IsoStr)
    (hraw : t.expires_at = some raw) (hbad : fromisoformat raw = none) :
    ensure_after_load now resp (some t) w = (Except.ok none, w, []) := by
  unfold ensure_after_load
  dsimp only
  rw [hraw]
  dsimp only
  rw [hbad]

lemma ensure_after_load_valid (now : Int) (resp : TokenEndpointResp)
    (t : Tokens) (w : World) (raw : IsoStr) (e : Int)
    (hraw : t.expires_at = some raw) (hparse : fromisoformat raw = some e)
    (hvalid : now < e - two_minutes) :
    ensure_after_load now resp (some t) w = (Except.ok (some t), w, []) := by
  unfold ensure_after_load
  dsimp only
  rw [hraw]
  dsimp only
  rw [hparse]
  dsimp only
  rw [if_neg (by omega)]

lemma ensure_after_load_due (now : Int) (resp : TokenEndpointResp)
    (t : Tokens) (w : World) (raw : IsoStr) (e : Int)
    (hraw : t.expires_at = some raw) (hparse : fromisoformat raw = some e)
    (hdue : e - two_minutes ≤ now) :
    ensure_after_load now resp (some t) w =
      refresh_tokens now resp t.refresh_token w := by
  unfold ensure_after_load
  dsimp only
  rw [hraw]
  dsimp only
  rw [hparse]
  dsimp only
  rw [if_pos hdue]

lemma save_tokens_ok (now k : Int) (t : Tokens) (w : World)
    (hk : t.expires_in = some k) :
    ∃ w2 tr,
      save_tokens now t w =
        (Except.ok (none, { t with expires_at := some (isoformat (now + k)) }),
         w2, tr) ∧
      (w2.store.localFile = some { t with expires_at := some (isoformat (now + k)) } ∨
       w2.store.cloudSecret = some { t with expires_at := some (isoformat (now + k)) }) := by
  unfold save_tokens
  rw [hk]
  rcases hrp : runProbe w with ⟨b, w1, tr⟩
  cases b
  · refine ⟨{ w1 with store := { w1.store with
        localFile := some { t with expires_at := some (isoformat (now + k)),
                                   expires_in := some k } } },
      tr, ?_, Or.inl rfl⟩
    simp
  · cases hcs : w1.store.cloudSecret
    · refine ⟨{ w1 with store := { w1.store with
          cloudSecret := some { t with expires_at := some (isoformat (now + k)),
                                       expires_in := some k } } },
        tr ++ [NetCall.secretsUpdate, NetCall.secretsCreate], ?_, Or.inr rfl⟩
      simp [hcs]
    · refine ⟨{ w1 with store := { w1.store with
          cloudSecret := some { t with expires_at := some (isoformat (now + k)),
                                       expires_in := some k } } },
        tr ++ [NetCall.secretsUpdate], ?_, Or.inr rfl⟩
      simp [hcs]

/-- C2, amended: for every stored TokenSet whose expires_at parses to a
time strictly more than 2 minutes after now, ensure_valid_tokens
returns exactly the loaded TokenSet (same field values), performs no
refresh (no POST to the OAuth token endpoint appears in the trace) and
leaves storage untouched; however, contrary to the original claim, the
call does not perform zero network calls: the storage load re-runs the
EC2 metadata probe on every invocation, so the network trace of even
this fast path is nonempty. -/
theorem c2_valid_token_fast_path (now : Int) (resp : TokenEndpointResp)
    (w w1 : World) (t : Tokens) (tr1 : List NetCall) (raw : IsoStr) (e : Int)
    (hload : load_tokens w = (some t, w1, tr1))
    (hraw : t.expires_at = some raw)
    (hparse : fromisoformat raw = some e)
    (hvalid : now < e - two_minutes) :
    ensure_valid_tokens now resp w = (Except.ok (some t), w1, tr1) ∧
    w1.store = w.store ∧
    NetCall.tokenPost ∉ tr1 ∧
    tr1 ≠ [] := by
  refine ⟨?_, ?_, ?_, ?_⟩
  · unfold ensure_valid_tokens
    rw [hload]
    dsimp only
    rw [ensure_after_load_valid now resp t w1 raw e hraw hparse hvalid]
    simp
  · have h := load_tokens_store w
    rw [hload] at h
    exact h
  · intro hmem
    rcases load_tokens_trace_mem w NetCall.tokenPost
        (by rw [hload]; exact hmem) with h | h | h <;> cases h
  · have h := load_tokens_trace_ne_nil w
    rw [hload] at h
    exact h

/-- C2 witness: the amended fast-path theorem applied to a concrete
off-EC2 world holding a token valid until time 100000, queried at
time 0. -/
theorem c2_witness :
    ensure_valid_tokens 0 exResp200 wValid =
      (Except.ok (some exValid), wValid, [NetCall.imdsPut, NetCall.imdsGet]) ∧
    wValid.store = wValid.store ∧
    NetCall.tokenPost ∉ [NetCall.imdsPut, NetCall.imdsGet] ∧
    ([NetCall.imdsPut, NetCall.imdsGet] : List NetCall) ≠ [] :=
  c2_valid_token_fast_path 0 exResp200 wValid wValid exValid
    [NetCall.imdsPut, NetCall.imdsGet] (IsoStr.valid 100000) 100000
    (by decide) (by decide) (by decide) (by decide)

/-- C2 counterexample: on a concrete valid stored token the call does
return the token unchanged with no refresh, but its network trace is
the two metadata-probe requests of the storage load — not zero network
calls as the claim states. -/
theorem c2_counterexample :
    (ensure_valid_tokens 0 exResp200 wValid).1 = Except.ok (some exValid) ∧
    (ensure_valid_tokens 0 exResp200 wValid).2.2 =
      [NetCall.imdsPut, NetCall.imdsGet] ∧
    (ensure_valid_tokens 0 exResp200 wValid).2.2 ≠ [] := by
  refine ⟨rfl, by decide, by decide⟩

/-- C3, confirmed: for every stored TokenSet in the RefreshDue state
(expires_at parses and is within the 2-minute buffer of now, or past),
if the token-endpoint refresh POST returns a non-200 status then
ensure_valid_tokens returns None and the storage state is exactly what
it was before the call: the stale token set is neither deleted nor
overwritten nor revalidated. -/
theorem c3_refresh_failure_preserves_store (now : Int)
    (resp : TokenEndpointResp) (w w1 : World) (t : Tokens)
    (tr1 : List NetCall) (raw : IsoStr) (e : Int)
    (hload : load_tokens w = (some t, w1, tr1))
    (hraw : t.expires_at = some raw)
    (hparse : fromisoformat raw = some e)
    (hdue : e - two_minutes ≤ now)
    (hfail : resp.status ≠ 200) :
    ensure_valid_tokens now resp w =
      (Except.ok none, w1, tr1 ++ [NetCall.tokenPost]) ∧
    w1.store = w.store := by
  constructor
  · unfold ensure_valid_tokens
    rw [hload]
    dsimp only
    rw [ensure_after_load_due now resp t w1 raw e hraw hparse hdue]
    unfold refresh_tokens
    rw [if_neg hfail]
  · have h := load_tokens_store w
    rw [hload] at h
    exact h

/-- C3 witness: the theorem applied to the concrete off-EC2 world
holding the stale token, with the refresh endpoint answering 400. -/
theorem c3_witness :
    ensure_valid_tokens 10000 exResp400 wStale =
      (Except.ok none, wStale,
       [NetCall.imdsPut, NetCall.imdsGet] ++ [NetCall.tokenPost]) ∧
    wStale.store = wStale.store :=
  c3_refresh_failure_preserves_store 10000 exResp400 wStale wStale exStale
    [NetCall.imdsPut, NetCall.imdsGet] (IsoStr.valid 100) 100
    (by decide) (by decide) (by decide) (by decide) (by decide)

/-- C4, amended: when the store yields no TokenSet, or yields one whose
expires_at is missing or unparseable, ensure_valid_tokens returns None
without raising, attempts no refresh (no POST to the OAuth token
endpoint), triggers no interactive authentication, and leaves storage
untouched; however, contrary to the original claim, it does not
perform zero network calls: the storage load re-runs the EC2 metadata
probe, whose requests make the trace nonempty. -/
theorem c4_missing_or_bad_expires (now : Int) (resp : TokenEndpointResp)
    (w w1 : World) (tk : Option Tokens) (tr1 : List NetCall)
    (hload : load_tokens w = (tk, w1, tr1))
    (hcase : tk = none ∨
      ∃ t, tk = some t ∧
        (t.expires_at = none ∨
         ∃ raw, t.expires_at = some raw ∧ fromisoformat raw = none)) :
    ensure_valid_tokens now resp w = (Except.ok none, w1, tr1) ∧
    w1.store = w.store ∧
    NetCall.tokenPost ∉ tr1 ∧
    NetCall.browserAuth ∉ tr1 ∧
    tr1 ≠ [] := by
  refine ⟨?_, ?_, ?_, ?_, ?_⟩
  · unfold ensure_valid_tokens
    rw [hload]
    dsimp only
    rcases hcase with h | ⟨t, ht, h | ⟨raw, hraw, hbad⟩⟩
    · rw [h, ensure_after_load_none now resp w1]
      simp
    · rw [ht, ensure_after_load_no_expiry now resp t w1 h]
      simp
    · rw [ht, ensure_after_load_bad_expiry now resp t w1 raw hraw hbad]
      simp
  · have h := load_tokens_store w
    rw [hload] at h
    exact h
  · intro hmem
    rcases load_tokens_trace_mem w NetCall.tokenPost
        (by rw [hload]; exact hmem) with h | h | h <;> cases h
  · intro hmem
    rcases load_tokens_trace_mem w NetCall.browserAuth
        (by rw [hload]; exact hmem) with h | h | h <;> cases h
  · have h := load_tokens_trace_ne_nil w
    rw [hload] at h
    exact h

/-- C4 witness: the theorem applied to the concrete off-EC2 world with
no token file. -/
theorem c4_witness :
    ensure_valid_tokens 0 exResp200 wEmpty =
      (Except.ok none, wEmpty, [NetCall.imdsPut, NetCall.imdsGet]) ∧
    wEmpty.store = wEmpty.store ∧
    NetCall.tokenPost ∉ [NetCall.imdsPut, NetCall.imdsGet] ∧
    NetCall.browserAuth ∉ [NetCall.imdsPut, NetCall.imdsGet] ∧
    ([NetCall.imdsPut, NetCall.imdsGet] : List NetCall) ≠ [] :=
  c4_missing_or_bad_expires 0 exResp200 wEmpty wEmpty none
    [NetCall.imdsPut, NetCall.imdsGet] (by decide) (Or.inl rfl)

/-- C4 counterexample: with no token file the call does return None
without refresh or interactive authentication, but its network trace
holds the two metadata-probe requests of the storage load — not zero
network calls as the claim states. -/
theorem c4_counterexample :
    ensure_valid_tokens 0 exResp200 wEmpty =
      (Except.ok none, wEmpty, [NetCall.imdsPut, NetCall.imdsGet]) ∧
    (ensure_valid_tokens 0 exResp200 wEmpty).2.2 ≠ [] := by
  refine ⟨rfl, by decide⟩

/-- C5, confirmed: on every successful authorization-code exchange and
on every successful refresh (HTTP 200 with a body carrying
expires_in = k seconds), the token set persisted to whichever backend
the probe selects — and the one returned to the caller — has
expires_at equal to the absolute time now + k, stored as a timestamp
string (IsoStr.valid denotes a well-formed absolute ISO timestamp),
never as a relative duration. -/
theorem c5_expires_at_absolute (now : Int) (resp : TokenEndpointResp)
    (rt : Option String) (code : String) (w wx : World) (k : Int)
    (hs : resp.status = 200)
    (hk : resp.body.expires_in = some k) :
    (∃ w2 tr,
      refresh_tokens now resp rt w =
        (Except.ok (some { resp.body with expires_at := some (isoformat (now + k)) }),
         w2, tr) ∧
      (w2.store.localFile = some { resp.body with expires_at := some (isoformat (now + k)) } ∨
       w2.store.cloudSecret = some { resp.body with expires_at := some (isoformat (now + k)) })) ∧
    (∃ w2 tr,
      get_tokens now resp code wx =
        (Except.ok (some { resp.body with expires_at := some (isoformat (now + k)) }),
         w2, tr) ∧
      (w2.store.localFile = some { resp.body with expires_at := some (isoformat (now + k)) } ∨
       w2.store.cloudSecret = some { resp.body with expires_at := some (isoformat (now + k)) })) := by
  constructor
  · obtain ⟨w2, tr, heq, hst⟩ := save_tokens_ok now k resp.body w hk
    refine ⟨w2, NetCall.tokenPost :: tr, ?_, hst⟩
    unfold refresh_tokens
    rw [if_pos hs, heq]
  · obtain ⟨w2, tr, heq, hst⟩ := save_tokens_ok now k resp.body wx hk
    refine ⟨w2, NetCall.tokenPost :: tr, ?_, hst⟩
    unfold get_tokens
    rw [if_pos hs, heq]

/-- C5 witness: the theorem applied to a concrete 200 response with
expires_in 1800 at time 0, on the empty off-EC2 world. -/
theorem c5_witness :
    (∃ w2 tr,
      refresh_tokens 0 exResp200 (some "r") wEmpty =
        (Except.ok (some { exFresh with expires_at := some (isoformat (0 + 1800)) }),
         w2, tr) ∧
      (w2.store.localFile = some { exFresh with expires_at := some (isoformat (0 + 1800)) } ∨
       w2.store.cloudSecret = some { exFresh with expires_at := some (isoformat (0 + 1800)) })) ∧
    (∃ w2 tr,
      get_tokens 0 exResp200 "authcode" wEmpty =
        (Except.ok (some { exFresh with expires_at := some (isoformat (0 + 1800)) }),
         w2, tr) ∧
      (w2.store.localFile = some { exFresh with expires_at := some (isoformat (0 + 1800)) } ∨
       w2.store.cloudSecret = some { exFresh with expires_at := some (isoformat (0 + 1800)) })) :=
  c5_expires_at_absolute 0 exResp200 (some "r") "authcode" wEmpty wEmpty 1800
    (by decide) (by decide)

/-- C1 counterexample: ensure_valid_tokens takes no lock, so under the
legal interleaving in which two concurrent callers both perform their
storage load before either proceeds, each caller sees the stale
snapshot and issues its own refresh: on a concrete stale stored token
the combined trace holds two POSTs to the OAuth token endpoint, not
the exactly one the claim requires. -/
theorem c1_counterexample :
    refresh_calls (two_callers_both_load_first 10000 exResp200 wStale).2 = 2 ∧
    refresh_calls (two_callers_both_load_first 10000 exResp200 wStale).2 ≠ 1 := by
  refine ⟨by decide, by decide⟩

/-- C1, amended: the code has no single-flight serialization; for every
stored TokenSet in the RefreshDue state, two concurrent callers of
ensure_valid_tokens that both complete their storage load before
either refreshes each issue their own refresh call, so the number of
refresh POSTs equals the number of callers (two), not one. -/
theorem c1_two_callers_two_refreshes (now : Int) (resp : TokenEndpointResp)
    (t : Tokens) (cs : Option Tokens) (raw : IsoStr) (e k : Int)
    (hraw : t.expires_at = some raw)
    (hparse : fromisoformat raw = some e)
    (hdue : e - two_minutes ≤ now)
    (hs : resp.status = 200)
    (hk : resp.body.expires_in = some k) :
    refresh_calls (two_callers_both_load_first now resp
      { probes := [], store := { localFile := some t, cloudSecret := cs } }).2 = 2 := by
  have hload : ∀ st : Store, load_tokens { probes := [], store := st } =
      (st.localFile, { probes := [], store := st }, [NetCall.imdsPut, NetCall.imdsGet]) := by
    intro st
    rfl
  have hsave : ∀ w : World, w.probes = [] →
      ∃ w2, save_tokens now resp.body w =
        (Except.ok (none, { resp.body with expires_at := some (isoformat (now + k)),
                                           expires_in := some k }),
         w2, [NetCall.imdsPut, NetCall.imdsGet]) ∧ w2.probes = [] := by
    intro w hw
    refine ⟨{ w with store := { w.store with
      localFile := some { resp.body with
        expires_at := some (isoformat (now + k)), expires_in := some k } } }, ?_, hw⟩
    unfold save_tokens
    rw [hk]
    unfold runProbe
    rw [hw]
    dsimp only [is_running_on_ec2, defaultProbe]
    simp
    exact hw
  have hrefresh : ∀ w : World, w.probes = [] →
      ∃ w2, refresh_tokens now resp t.refresh_token w =
        (Except.ok (some { resp.body with expires_at := some (isoformat (now + k)),
                                          expires_in := some k }),
         w2, [NetCall.tokenPost, NetCall.imdsPut, NetCall.imdsGet]) ∧
        w2.probes = [] := by
    intro w hw
    obtain ⟨w2, heq, hw2⟩ := hsave w hw
    refine ⟨w2, ?_, hw2⟩
    unfold refresh_tokens
    rw [if_pos hs, heq]
  obtain ⟨w3, heq3, hw3⟩ :=
    hrefresh { probes := [], store := { localFile := some t, cloudSecret := cs } } rfl
  obtain ⟨w4, heq4, _⟩ := hrefresh w3 hw3
  unfold two_callers_both_load_first
  rw [hload { localFile := some t, cloudSecret := cs }]
  dsimp only
  rw [hload { localFile := some t, cloudSecret := cs }]
  dsimp only
  rw [ensure_after_load_due now resp t
    { probes := [], store := { localFile := some t, cloudSecret := cs } }
    raw e hraw hparse hdue]
  rw [heq3]
  dsimp only
  rw [ensure_after_load_due now resp t w3 raw e hraw hparse hdue]
  rw [heq4]
  dsimp only
  decide

/-- C1 witness: the amended two-refreshes theorem applied to the
concrete stale world at time 10000 with a successful refresh
endpoint. -/
theorem c1_witness :
    refresh_calls (two_callers_both_load_first 10000 exResp200
      { probes := [], store := { localFile := some exStale, cloudSecret := none } }).2 = 2 :=
  c1_two_callers_two_refreshes 10000 exResp200 exStale none
    (IsoStr.valid 100) 100 1800 (by decide) (by decide) (by decide)
    (by decide) (by decide)

/-- C6 counterexample: on a concrete save over an existing token file,
the operation trace of the local save contains no rename and no write
to a temporary path, and the sequence of cs_tokens.json contents
observable to a concurrent reader passes through the truncated-empty
state — a partially written file, which is neither the old nor the new
token set. -/
theorem c6_counterexample :
    save_tokens_local_trace exFresh =
      [FsOp.openTruncFinal, FsOp.writeFinal exFresh] ∧
    FsOp.renameTempToFinal ∉ save_tokens_local_trace exFresh ∧
    FsOp.openTruncTemp ∉ save_tokens_local_trace exFresh ∧
    observableFinals ⟨FileContent.json exStale, FileContent.absent⟩
        (save_tokens_local_trace exFresh) =
      [FileContent.json exStale, FileContent.empty, FileContent.json exFresh] ∧
    FileContent.empty ∈ observableFinals ⟨FileContent.json exStale, FileContent.absent⟩
        (save_tokens_local_trace exFresh) := by
  refine ⟨by decide, by decide, by decide, by decide, by decide⟩

/-- C6, amended: every save to the local token store opens
cs_tokens.json itself in write mode — truncating it in place — and
then writes the JSON-encoded TokenSet; no temporary path and no rename
are involved, so between the truncating open and the completed write a
concurrent reader can observe a partially written (empty) token
file. -/
theorem c6_direct_overwrite (t : Tokens) (init : LocalFs) :
    save_tokens_local_trace t = [FsOp.openTruncFinal, FsOp.writeFinal t] ∧
    (∀ op ∈ save_tokens_local_trace t,
      op ≠ FsOp.renameTempToFinal ∧ op ≠ FsOp.openTruncTemp ∧
      ∀ u : Tokens, op ≠ FsOp.writeTemp u) ∧
    observableFinals init (save_tokens_local_trace t) =
      [init.finalFile, FileContent.empty, FileContent.json t] := by
  refine ⟨rfl, ?_, rfl⟩
  intro op hop
  simp only [save_tokens_local_trace, List.mem_cons, List.not_mem_nil,
    or_false] at hop
  rcases hop with h | h <;> subst h <;>
    exact ⟨by simp, by simp, by intro u; simp⟩

/-- C7 counterexample: in one process whose first metadata probe says
off-EC2 and whose second says on-EC2, a load followed by a save use
different backends: the load returns the local file content without
any Secrets Manager read, while the immediately following save writes
the cloud secret and leaves the local file untouched.  The backend is
therefore re-decided per call, not fixed at process start. -/
theorem c7_counterexample :
    (load_tokens wMix).1 = some exStale ∧
    NetCall.secretsGet ∉ (load_tokens wMix).2.2 ∧
    (save_tokens 0 exFresh (load_tokens wMix).2.1).2.1.store.cloudSecret =
      some { exFresh with expires_at := some (IsoStr.valid 1800) } ∧
    (save_tokens 0 exFresh (load_tokens wMix).2.1).2.1.store.localFile =
      some exStale ∧
    NetCall.secretsUpdate ∈ (save_tokens 0 exFresh (load_tokens wMix).2.1).2.2 := by
  refine ⟨by decide, by decide, by decide, by decide, by decide⟩

/-- C7, amended: the storage backend is not decided once at process
start; both load_tokens and save_tokens re-run the EC2 environment
probe on every call, each consuming the next probe outcome, so in one
process a load whose probe answers off-EC2 reads the local file while
the next save, whose probe answers on-EC2, writes the cloud secret. -/
theorem c7_probe_per_call (w : World) (p1 p2 : ProbeEnv)
    (rest : List ProbeEnv) (tks : Tokens) (now k : Int)
    (hp : w.probes = p1 :: p2 :: rest)
    (h1 : (is_running_on_ec2 p1).1 = false)
    (h2 : (is_running_on_ec2 p2).1 = true)
    (hk : tks.expires_in = some k) :
    load_tokens w =
      (w.store.localFile, { w with probes := p2 :: rest }, (is_running_on_ec2 p1).2) ∧
    (∃ tr, save_tokens now tks { w with probes := p2 :: rest } =
      (Except.ok (none, { tks with expires_at := some (isoformat (now + k)),
                                   expires_in := some k }),
       { probes := rest,
         store := { localFile := w.store.localFile,
                    cloudSecret := some { tks with
                      expires_at := some (isoformat (now + k)),
                      expires_in := some k } } },
       tr)) := by
  constructor
  · unfold load_tokens runProbe
    rw [hp]
    dsimp only
    rw [h1]
    simp
  · unfold save_tokens runProbe
    rw [hk]
    dsimp only
    rw [h2]
    cases hcs : w.store.cloudSecret
    · exact ⟨(is_running_on_ec2 p2).2 ++ [NetCall.secretsUpdate, NetCall.secretsCreate],
        by simp⟩
    · exact ⟨(is_running_on_ec2 p2).2 ++ [NetCall.secretsUpdate],
        by simp⟩

/-- C7 witness: the per-call-probe theorem applied to the concrete
mixed-probe world wMix. -/
theorem c7_witness :
    load_tokens wMix =
      (wMix.store.localFile, { wMix with probes := [probeOn] },
       (is_running_on_ec2 probeOff).2) ∧
    (∃ tr, save_tokens 0 exFresh { wMix with probes := [probeOn] } =
      (Except.ok (none, { exFresh with expires_at := some (isoformat (0 + 1800)),
                                       expires_in := some 1800 }),
       { probes := [],
         store := { localFile := wMix.store.localFile,
                    cloudSecret := some { exFresh with
                      expires_at := some (isoformat (0 + 1800)),
                      expires_in := some 1800 } } },
       tr)) :=
  c7_probe_per_call wMix probeOff probeOn [] exFresh 0 1800
    (by decide) (by decide) (by decide) (by decide)

lemma get_positions_loop_429_hdr (resps : Nat → PosResp) (attempt rem : Nat)
    (n : Int) (hr : (resps attempt).raised = false)
    (hs : (resps attempt).status = 429)
    (ha : (resps attempt).retryAfter = some (some n)) :
    get_positions_loop resps attempt (rem + 1) =
      ((get_positions_loop resps (attempt + 1) rem).1,
       ApiEffect.httpGet :: ApiEffect.sleep n ::
         (get_positions_loop resps (attempt + 1) rem).2) := by
  rcases hrec : get_positions_loop resps (attempt + 1) rem with ⟨res, tr⟩
  unfold get_positions_loop
  dsimp only
  rw [hr, hs, ha, hrec]
  simp

lemma get_positions_loop_429_nohdr (resps : Nat → PosResp) (attempt rem : Nat)
    (hr : (resps attempt).raised = false)
    (hs : (resps attempt).status = 429)
    (ha : (resps attempt).retryAfter = none) :
    get_positions_loop resps attempt (rem + 1) =
      ((get_positions_loop resps (attempt + 1) rem).1,
       ApiEffect.httpGet :: ApiEffect.sleep 60 ::
         (get_positions_loop resps (attempt + 1) rem).2) := by
  rcases hrec : get_positions_loop resps (attempt + 1) rem with ⟨res, tr⟩
  unfold get_positions_loop
  dsimp only
  rw [hr, hs, ha, hrec]
  simp

/-- C8 counterexample: get_account_details receives HTTP 429 with
Retry-After 5 and returns None after its single request: its effect
trace holds exactly one GET, no sleep and no retry — so it is not the
case that every API call receiving 429 sleeps Retry-After seconds and
retries exactly once. -/
theorem c8_counterexample :
    get_account_details ⟨429, some (some 5), "body"⟩ =
      (none, [ApiEffect.httpGet]) ∧
    (get_account_details ⟨429, some (some 5), "body"⟩).2.count
      ApiEffect.httpGet = 1 ∧
    (get_account_details ⟨429, some (some 5), "body"⟩).2.count
      (ApiEffect.sleep 5) = 0 := by
  refine ⟨by decide, by decide, by decide⟩

/-- C8, amended: 429 handling is inconsistent per call site rather than
uniform.  get_positions, on a 429 first attempt, sleeps exactly the
server-dictated Retry-After seconds (60 when the header is absent) with
no exponential backoff added, and then re-enters its 3-attempt loop
(so it can retry more than once); get_account_details, on a 429,
returns None after its single request with no sleep and no retry. -/
theorem c8_per_call_site_429 (r : ApiResp) (n : Int)
    (resps respsNoHdr resps429 : Nat → PosResp)
    (hr : r.status = 429)
    (h0r : (resps 0).raised = false)
    (h0s : (resps 0).status = 429)
    (h0a : (resps 0).retryAfter = some (some n))
    (h1r : (respsNoHdr 0).raised = false)
    (h1s : (respsNoHdr 0).status = 429)
    (h1a : (respsNoHdr 0).retryAfter = none)
    (hAll : ∀ i, resps429 i = ⟨false, 429, some (some n), []⟩) :
    get_account_details r = (none, [ApiEffect.httpGet]) ∧
    (∃ rest, (get_positions resps).2 =
      ApiEffect.httpGet :: ApiEffect.sleep n :: rest) ∧
    (∃ rest, (get_positions respsNoHdr).2 =
      ApiEffect.httpGet :: ApiEffect.sleep 60 :: rest) ∧
    (get_positions resps429).2.count ApiEffect.httpGet = 3 := by
  refine ⟨?_, ?_, ?_, ?_⟩
  · unfold get_account_details
    rw [hr]
    simp
  · refine ⟨(get_positions_loop resps 1 2).2, ?_⟩
    show (get_positions_loop resps 0 (2 + 1)).2 = _
    rw [get_positions_loop_429_hdr resps 0 2 n h0r h0s h0a]
  · refine ⟨(get_positions_loop respsNoHdr 1 2).2, ?_⟩
    show (get_positions_loop respsNoHdr 0 (2 + 1)).2 = _
    rw [get_positions_loop_429_nohdr respsNoHdr 0 2 h1r h1s h1a]
  · show (get_positions_loop resps429 0 (2 + 1)).2.count ApiEffect.httpGet = 3
    rw [get_positions_loop_429_hdr resps429 0 2 n
      (by rw [hAll 0]) (by rw [hAll 0]) (by rw [hAll 0])]
    show (ApiEffect.httpGet :: ApiEffect.sleep n ::
      (get_positions_loop resps429 1 (1 + 1)).2).count ApiEffect.httpGet = 3
    rw [get_positions_loop_429_hdr resps429 1 1 n
      (by rw [hAll 1]) (by rw [hAll 1]) (by rw [hAll 1])]
    show (ApiEffect.httpGet :: ApiEffect.sleep n :: ApiEffect.httpGet ::
      ApiEffect.sleep n ::
      (get_positions_loop resps429 2 (0 + 1)).2).count ApiEffect.httpGet = 3
    rw [get_positions_loop_429_hdr resps429 2 0 n
      (by rw [hAll 2]) (by rw [hAll 2]) (by rw [hAll 2])]
    simp [get_positions_loop, List.count_cons]

/-- C8 witness: the per-call-site theorem applied to concrete
responses: a 429 with Retry-After 5 for get_account_details, a 429
with Retry-After 5 then a 200 for get_positions, a 429 without the
header, and an unbroken stream of 429s. -/
theorem c8_witness :
    get_account_details ⟨429, some (some 5), "body2"⟩ =
      (none, [ApiEffect.httpGet]) ∧
    (∃ rest, (get_positions (fun i => if i = 0 then exPos429 else exPos200)).2 =
      ApiEffect.httpGet :: ApiEffect.sleep 5 :: rest) ∧
    (∃ rest, (get_positions (fun i => if i = 0 then exPos429NoHdr else exPos200)).2 =
      ApiEffect.httpGet :: ApiEffect.sleep 60 :: rest) ∧
    (get_positions (fun _ => exPos429)).2.count ApiEffect.httpGet = 3 :=
  c8_per_call_site_429 ⟨429, some (some 5), "body2"⟩ 5
    (fun i => if i = 0 then exPos429 else exPos200)
    (fun i => if i = 0 then exPos429NoHdr else exPos200)
    (fun _ => exPos429)
    (by decide) (by decide) (by decide) (by decide)
    (by decide) (by decide) (by decide) (fun i => rfl)

/-- C9, confirmed: save_tokens has no return statement, so on every
completing (non-raising) execution its Python return value is None,
whatever the backend did; the store is genuinely updated with the
freshly stamped token set, yet the truthiness branch a caller such as
the upload endpoint puts around the call (if save_tokens(tokens): ...)
evaluates None as falsy and takes the failure branch even though the
save succeeded. -/
theorem c9_save_returns_none (now k : Int) (t : Tokens) (w : World)
    (hk : t.expires_in = some k) :
    ∃ w2 tr,
      save_tokens now t w =
        (Except.ok ((none : Option Unit),
          { t with expires_at := some (isoformat (now + k)) }), w2, tr) ∧
      (w2.store.localFile = some { t with expires_at := some (isoformat (now + k)) } ∨
       w2.store.cloudSecret = some { t with expires_at := some (isoformat (now + k)) }) ∧
      pyTruthy none = false ∧
      upload_save_branch none = HttpResult.err 500 "Failed to save tokens" := by
  obtain ⟨w2, tr, heq, hst⟩ := save_tokens_ok now k t w hk
  exact ⟨w2, tr, heq, hst, rfl, rfl⟩

/-- C9 witness: the theorem applied to the stale token set (which has
expires_in 1800) on the empty off-EC2 world at time 0. -/
theorem c9_witness :
    ∃ w2 tr,
      save_tokens 0 exStale wEmpty =
        (Except.ok ((none : Option Unit),
          { exStale with expires_at := some (isoformat (0 + 1800)) }), w2, tr) ∧
      (w2.store.localFile = some { exStale with expires_at := some (isoformat (0 + 1800)) } ∨
       w2.store.cloudSecret = some { exStale with expires_at := some (isoformat (0 + 1800)) }) ∧
      pyTruthy none = false ∧
      upload_save_branch none = HttpResult.err 500 "Failed to save tokens" :=
  c9_save_returns_none 0 1800 exStale wEmpty (by decide)

/-- C10, confirmed: save_tokens demands an expires_in key — on any
token dict without one it raises KeyError before touching storage —
and on a dict that has one it overwrites any caller-supplied
expires_at with now + expires_in in the dict it persists and hands
back; consequently the upload endpoint, whose dict carries expires_at
but no expires_in, always ends in the 500 error path with the store
exactly as it was (nothing persisted). -/
theorem c10_save_requires_expires_in (now k te : Int) (t1 t2 : Tokens)
    (w1 w2 w3 : World) (req : UploadReq)
    (h1 : t1.expires_in = none)
    (h2 : t2.expires_in = some k)
    (hreq : ¬(req.access_token = "" ∨ req.refresh_token = "" ∨
              isoIsEmpty req.expires_at_raw = true))
    (hparse : fromisoformat req.expires_at_raw = some te)
    (hfuture : now < te) :
    save_tokens now t1 w1 =
      (Except.error (PyError.keyError "expires_in"), w1, []) ∧
    (∃ w4 tr, save_tokens now t2 w2 =
      (Except.ok ((none : Option Unit),
        { t2 with expires_at := some (isoformat (now + k)) }), w4, tr)) ∧
    upload_tokens now req w3 =
      (HttpResult.err 500 (pyErrMsg (PyError.keyError "expires_in")), w3) := by
  refine ⟨?_, ?_, ?_⟩
  · unfold save_tokens
    rw [h1]
  · obtain ⟨w4, tr, heq, _⟩ := save_tokens_ok now k t2 w2 h2
    exact ⟨w4, tr, heq⟩
  · unfold upload_tokens
    rw [if_neg hreq, hparse]
    dsimp only
    rw [if_neg (by omega)]
    rfl

/-- C10 witness: the theorem applied to the upload-shaped dict (no
expires_in), the stale token set (expires_in 1800, expires_at time
100, overwritten to time 1800), and a well-formed upload request at
time 0. -/
theorem c10_witness :
    save_tokens 0 exUploadDict wEmpty =
      (Except.error (PyError.keyError "expires_in"), wEmpty, []) ∧
    (∃ w4 tr, save_tokens 0 exStale wStale =
      (Except.ok ((none : Option Unit),
        { exStale with expires_at := some (isoformat (0 + 1800)) }), w4, tr)) ∧
    upload_tokens 0 exUploadReq wValid =
      (HttpResult.err 500 (pyErrMsg (PyError.keyError "expires_in")), wValid) :=
  c10_save_requires_expires_in 0 1800 50 exUploadDict exStale wEmpty wStale
    wValid exUploadReq (by decide) (by decide) (by decide) (by decide)
    (by decide)

end Schwab
